import Mathlib

/-!
Shallow embedding of the device-service notification handler and
lifecycle-callback registration from src/src/c/callback.c, together with
the device registry (devmap) collaborator it drives.

The two functions under verification are
`edgex_device_handler_callback` and
`edgex_device_register_devicelist_callbacks`; both are translated
statement by statement from callback.c.  The registry operations
(`edgex_devmap_device_byid`, `edgex_devmap_removedevice_byid`,
`edgex_devmap_replace_device`) live in a file of the repository that is
not part of the sources here, so they are modelled from the design
document (section 4.1 Device Registry).

External effects are made explicit: JSON parsing becomes an
`Option CallbackPayload` input, the remote metadata fetch becomes an
`Option edgex_device` input, lifecycle-callback invocations become an
output event list, and a NULL-pointer dereference in the C code becomes
the `none` result of the handler.
-/

/-- Administrative state of a device (edgex_device_adminstate). -/
inductive AdminState where
  | LOCKED
  | UNLOCKED
deriving DecidableEq

/-- Protocol configurations of a device: an ordered list of named
property maps (edgex_protocols linked list). -/
abbrev EdgexProtocols := List (String × List (String × String))

/-- The fields of edgex_device that callback.c reads: id, name, the
owning service's name (device.service.name), protocols and adminState. -/
structure edgex_device where
  id : String
  name : String
  serviceName : String
  protocols : EdgexProtocols
  adminState : AdminState
deriving DecidableEq

/-- Outcome of a registry replace (edgex_devmap_change enumeration). -/
inductive edgex_devmap_change where
  | CREATED
  | UPDATED_DRIVER
  | UPDATED_SDK
deriving DecidableEq

/-- Modelled from the spec: the Device Registry operation
lookupById (edgex_devmap_device_byid, whose source file is absent):
return the Device Record with the given id, or not-found. -/
def edgex_devmap_device_byid (devices : List edgex_device) (i : String) :
    Option edgex_device :=
  devices.find? (fun d => d.id == i)

/-- Modelled from the spec: the Device Registry operation
removeById (edgex_devmap_removedevice_byid, whose source file is
absent): erase the entry with the given id, if any. -/
def edgex_devmap_removedevice_byid (devices : List edgex_device) (i : String) :
    List edgex_device :=
  devices.filter (fun d => d.id != i)

/-- Modelled from the spec: the Device Registry operation
replace (edgex_devmap_replace_device, whose source file is absent):
if no record exists for the id, insert and return CREATED; otherwise
replace the stored record unconditionally and return UPDATED_DRIVER when
the compared fields (protocol configuration, admin state) differ, else
UPDATED_SDK. -/
def edgex_devmap_replace_device (devices : List edgex_device) (newdev : edgex_device) :
    edgex_devmap_change × List edgex_device :=
  match devices.find? (fun d => d.id == newdev.id) with
  | none => (.CREATED, devices ++ [newdev])
  | some old =>
    ((if old.protocols = newdev.protocols ∧ old.adminState = newdev.adminState
      then .UPDATED_SDK
      else .UPDATED_DRIVER),
     devices.map (fun d => if d.id = newdev.id then newdev else d))

/-- The string fields callback.c extracts from the parsed JSON payload:
json_object_get_string(jobj, "type") and
json_object_get_string(jobj, "id"); each is absent when the field is
missing (or not a string). -/
structure CallbackPayload where
  type_ : Option String
  id : Option String
deriving DecidableEq

/-- The transport verbs (edgex_http_method) the handler switches on;
DELETE, POST and PUT have dedicated cases, everything else falls to the
default arm. -/
inductive edgex_http_method where
  | GET
  | POST
  | PUT
  | PATCH
  | DELETE
deriving DecidableEq

/-- A recorded lifecycle-callback invocation with its arguments:
svc.addcallback(userdata, name, protocols, adminState),
svc.updatecallback(userdata, name, protocols, adminState),
svc.removecallback(userdata, name, protocols). -/
inductive CbEvent where
  | onAdd (name : String) (protocols : EdgexProtocols) (adminState : AdminState)
  | onUpdate (name : String) (protocols : EdgexProtocols) (adminState : AdminState)
  | onRemove (name : String) (protocols : EdgexProtocols)
deriving DecidableEq

/-- The fields of edgex_device_service that callback.c reads or writes:
the service name, the logger pointer, the device map, and the three
registered lifecycle-callback pointers.  A callback pointer is modelled
as an opaque identity (Option Nat, none for NULL). -/
structure edgex_device_service where
  name : String
  logger : Option Unit
  devices : List edgex_device
  addcallback : Option Nat
  updatecallback : Option Nat
  removecallback : Option Nat
deriving DecidableEq

def MHD_HTTP_OK : Nat := 200
def MHD_HTTP_BAD_REQUEST : Nat := 400
def MHD_HTTP_NOT_IMPLEMENTED : Nat := 501

/-- What one run of the handler produces: the returned HTTP status, the
device map it leaves behind, and the lifecycle-callback invocations it
performed, in order. -/
structure HandlerResult where
  status : Nat
  devices : List edgex_device
  events : List CbEvent
deriving DecidableEq

/-- edgex_device_handler_callback from callback.c, lines 19-125.
Inputs made explicit: payload is the result of json_parse_string on the
upload data (none for a parse failure) with the two string fields
already projected; fetched is the result of
edgex_metadata_client_get_device (none when the fetch fails or returns
nothing, the only distinction the code tests with if (newdev)).
The DELETE branch with a registered remove callback reads dev.name and
dev.protocols from the lookup result without a NULL check; when the
lookup returns not-found this is a NULL dereference, modelled as the
handler result none. -/
def edgex_device_handler_callback
    (svc : edgex_device_service)
    (payload : Option CallbackPayload)
    (method : edgex_http_method)
    (fetched : Option edgex_device) : Option HandlerResult :=
  match payload with
  | none => some ⟨MHD_HTTP_BAD_REQUEST, svc.devices, []⟩
  | some jobj =>
    match jobj.type_ with
    | none => some ⟨MHD_HTTP_NOT_IMPLEMENTED, svc.devices, []⟩
    | some action =>
      if action = "DEVICE" then
        match jobj.id with
        | none => some ⟨MHD_HTTP_BAD_REQUEST, svc.devices, []⟩
        | some i =>
          match method with
          | .DELETE =>
            if (svc.removecallback).isSome then
              match edgex_devmap_device_byid svc.devices i with
              | none => none
              | some dev =>
                some ⟨MHD_HTTP_OK,
                      edgex_devmap_removedevice_byid svc.devices i,
                      [.onRemove dev.name dev.protocols]⟩
            else
              some ⟨MHD_HTTP_OK,
                    edgex_devmap_removedevice_byid svc.devices i, []⟩
          | .POST | .PUT =>
            match fetched with
            | none => some ⟨MHD_HTTP_OK, svc.devices, []⟩
            | some newdev =>
              if newdev.serviceName ≠ svc.name then
                some ⟨MHD_HTTP_OK,
                      edgex_devmap_removedevice_byid svc.devices i,
                      if (svc.removecallback).isSome
                      then [.onRemove newdev.name newdev.protocols]
                      else []⟩
              else
                match edgex_devmap_replace_device svc.devices newdev with
                | (cls, devices) =>
                  some ⟨MHD_HTTP_OK, devices,
                        match cls with
                        | .CREATED =>
                          if (svc.addcallback).isSome
                          then [.onAdd newdev.name newdev.protocols newdev.adminState]
                          else []
                        | .UPDATED_DRIVER =>
                          if (svc.updatecallback).isSome
                          then [.onUpdate newdev.name newdev.protocols newdev.adminState]
                          else []
                        | .UPDATED_SDK => []⟩
          | _ => some ⟨MHD_HTTP_NOT_IMPLEMENTED, svc.devices, []⟩
      else
        some ⟨MHD_HTTP_NOT_IMPLEMENTED, svc.devices, []⟩

/-- edgex_device_register_devicelist_callbacks from callback.c,
lines 127-144.  Returns the updated service together with the error
messages it logged. -/
def edgex_device_register_devicelist_callbacks
    (svc : edgex_device_service)
    (add_device update_device remove_device : Option Nat) :
    edgex_device_service × List String :=
  if (svc.logger).isSome then
    (svc, ["Devicelist: must register callbacks before service start."])
  else
    ({ svc with addcallback := add_device,
                updatecallback := update_device,
                removecallback := remove_device }, [])

/-- The per-classification callback dispatch of the switch at
callback.c lines 86-102, as a standalone description: CREATED invokes
the add callback when registered, UPDATED_DRIVER the update callback
when registered, UPDATED_SDK nothing. -/
def devicelistDispatch (svc : edgex_device_service) (d : edgex_device) :
    edgex_devmap_change → List CbEvent
  | .CREATED =>
    if (svc.addcallback).isSome
    then [.onAdd d.name d.protocols d.adminState]
    else []
  | .UPDATED_DRIVER =>
    if (svc.updatecallback).isSome
    then [.onUpdate d.name d.protocols d.adminState]
    else []
  | .UPDATED_SDK => []

/-- Modelled from the spec: the service start routine
(edgex_device_service_start, whose source file is absent) configures the
running service, including its logger, before notifications are served;
a service that has started receiving notifications has a logger. -/
def serviceStarted (svc : edgex_device_service) : Prop :=
  (svc.logger).isSome

/-- Claim C1: a deleted DEVICE notification for an id absent from the
registry, with a remove callback registered, does NOT complete: the code
(callback.c lines 57-59) passes dev.name and dev.protocols to the remove
callback without checking that the lookup found a record, dereferencing
the missing record.  In the embedding the NULL dereference is the
handler result none, exhibited here at a concrete input. -/
theorem C1_delete_absent_id_dereferences_missing_record :
    edgex_device_handler_callback
      ⟨"svc", some (), [], none, none, some 7⟩
      (some ⟨some "DEVICE", some "d1"⟩) .DELETE none = none := rfl

/-- Claim C2, counterexample: registration is not write-once for every
service state.  With the logger unset, a first call stores callback 1
and a second call replaces it with callback 4. -/
theorem C2_counterexample_second_call_overwrites :
    ((edgex_device_register_devicelist_callbacks
        ⟨"svc", none, [], none, none, none⟩
        (some 1) (some 2) (some 3)).1).addcallback = some 1 ∧
    ((edgex_device_register_devicelist_callbacks
        (edgex_device_register_devicelist_callbacks
          ⟨"svc", none, [], none, none, none⟩
          (some 1) (some 2) (some 3)).1
        (some 4) (some 5) (some 6)).1).addcallback = some 4 :=
  ⟨rfl, rfl⟩

/-- Claim C2, amended: a registration call is a no-op (after logging the
rejection) exactly when the service's logger is set; while the logger is
unset every call, including a repeated one, stores the supplied
callbacks, so an earlier registration is overwritten. -/
theorem C2_amended_write_once_only_when_logger_set
    (svc : edgex_device_service) (a u r : Option Nat) :
    ((svc.logger).isSome →
      edgex_device_register_devicelist_callbacks svc a u r =
        (svc, ["Devicelist: must register callbacks before service start."])) ∧
    (svc.logger = none →
      (edgex_device_register_devicelist_callbacks svc a u r).1.addcallback = a ∧
      (edgex_device_register_devicelist_callbacks svc a u r).1.updatecallback = u ∧
      (edgex_device_register_devicelist_callbacks svc a u r).1.removecallback = r) := by
  unfold edgex_device_register_devicelist_callbacks
  constructor
  · intro h
    simp [h]
  · intro h
    simp [h]

/-- Witness for the amended C2 at a concrete started service. -/
theorem C2_amended_witness :
    edgex_device_register_devicelist_callbacks
      ⟨"svc", some (), [], none, none, none⟩ (some 1) (some 2) (some 3) =
      (⟨"svc", some (), [], none, none, none⟩,
       ["Devicelist: must register callbacks before service start."]) :=
  (C2_amended_write_once_only_when_logger_set _ _ _ _).1 rfl

/-- Claim C3: once the service has started receiving notifications
(modelled from the spec as the logger being set by service start), a
registration call only logs the rejection message and returns with the
service, in particular its stored callbacks, unchanged. -/
theorem C3_registration_after_start_rejected
    (svc : edgex_device_service) (a u r : Option Nat)
    (h : serviceStarted svc) :
    edgex_device_register_devicelist_callbacks svc a u r =
      (svc, ["Devicelist: must register callbacks before service start."]) := by
  unfold serviceStarted at h
  unfold edgex_device_register_devicelist_callbacks
  simp [h]

/-- Witness for C3 at a started service that already holds callbacks. -/
theorem C3_witness :
    edgex_device_register_devicelist_callbacks
      ⟨"svc", some (), [], some 1, some 2, some 3⟩ (some 4) (some 5) (some 6) =
      (⟨"svc", some (), [], some 1, some 2, some 3⟩,
       ["Devicelist: must register callbacks before service start."]) :=
  C3_registration_after_start_rejected _ _ _ _ rfl

/-- Claim C10: acceptance of a registration call is decided solely by
the presence of the service's logger.  With the logger unset the three
callback fields are assigned the supplied values; with the logger set
(whatever else the state is, even before any notification) the call only
logs and changes nothing. -/
theorem C10_acceptance_decided_by_logger_presence
    (svc : edgex_device_service) (a u r : Option Nat) :
    (svc.logger = none →
      (edgex_device_register_devicelist_callbacks svc a u r).1 =
        { svc with addcallback := a, updatecallback := u,
                   removecallback := r }) ∧
    (∀ l, svc.logger = some l →
      edgex_device_register_devicelist_callbacks svc a u r =
        (svc, ["Devicelist: must register callbacks before service start."])) := by
  unfold edgex_device_register_devicelist_callbacks
  constructor
  · intro h
    simp [h]
  · intro l h
    simp [h]

/-- Witness for C10 on both sides of the logger test. -/
theorem C10_witness :
    (edgex_device_register_devicelist_callbacks
      ⟨"svc", none, [], none, none, none⟩ (some 1) (some 2) (some 3)).1 =
      ⟨"svc", none, [], some 1, some 2, some 3⟩ ∧
    edgex_device_register_devicelist_callbacks
      ⟨"svc", some (), [], none, none, none⟩ (some 1) (some 2) (some 3) =
      (⟨"svc", some (), [], none, none, none⟩,
       ["Devicelist: must register callbacks before service start."]) :=
  ⟨(C10_acceptance_decided_by_logger_presence _ _ _ _).1 rfl,
   (C10_acceptance_decided_by_logger_presence _ _ _ _).2 () rfl⟩

/-- Claim C4, counterexample: a payload missing the resourceType field
(the JSON "type" field) does not yield BAD_REQUEST; at a concrete such
payload the handler returns NOT_IMPLEMENTED. -/
theorem C4_counterexample_missing_type_not_bad_request :
    edgex_device_handler_callback
      ⟨"svc", some (), [], none, none, none⟩
      (some ⟨none, some "d1"⟩) .POST none =
      some ⟨MHD_HTTP_NOT_IMPLEMENTED, [], []⟩ ∧
    MHD_HTTP_NOT_IMPLEMENTED ≠ MHD_HTTP_BAD_REQUEST :=
  ⟨rfl, by decide⟩

/-- Claim C4, amended: an unparseable payload, and a DEVICE notification
missing the id field, each yield BAD_REQUEST with the registry unchanged
and no callback invoked; a payload missing the resourceType field
instead yields NOT_IMPLEMENTED, likewise with no registry mutation and
no callback. -/
theorem C4_amended_missing_field_outcomes
    (svc : edgex_device_service) (m : edgex_http_method)
    (f : Option edgex_device) (i : Option String) :
    edgex_device_handler_callback svc none m f =
      some ⟨MHD_HTTP_BAD_REQUEST, svc.devices, []⟩ ∧
    edgex_device_handler_callback svc (some ⟨some "DEVICE", none⟩) m f =
      some ⟨MHD_HTTP_BAD_REQUEST, svc.devices, []⟩ ∧
    edgex_device_handler_callback svc (some ⟨none, i⟩) m f =
      some ⟨MHD_HTTP_NOT_IMPLEMENTED, svc.devices, []⟩ :=
  ⟨rfl, rfl, rfl⟩

/-- Claim C5: a notification whose resourceType is present but not
DEVICE, and a DEVICE notification (with an id) whose transport verb is
none of DELETE, POST, PUT, both return NOT_IMPLEMENTED with the registry
unchanged and no callback invoked. -/
theorem C5_unsupported_yields_not_implemented
    (svc : edgex_device_service) (f : Option edgex_device) :
    (∀ t i m, t ≠ "DEVICE" →
      edgex_device_handler_callback svc (some ⟨some t, i⟩) m f =
        some ⟨MHD_HTTP_NOT_IMPLEMENTED, svc.devices, []⟩) ∧
    (∀ i m, m ≠ .DELETE → m ≠ .POST → m ≠ .PUT →
      edgex_device_handler_callback svc (some ⟨some "DEVICE", some i⟩) m f =
        some ⟨MHD_HTTP_NOT_IMPLEMENTED, svc.devices, []⟩) := by
  constructor
  · intro t i m ht
    simp [edgex_device_handler_callback, ht]
  · intro i m h1 h2 h3
    cases m with
    | GET => rfl
    | PATCH => rfl
    | DELETE => exact absurd rfl h1
    | POST => exact absurd rfl h2
    | PUT => exact absurd rfl h3

/-- Witness for C5: a PROFILE notification over POST and a DEVICE
notification over GET, both at a concrete service. -/
theorem C5_witness :
    edgex_device_handler_callback
      ⟨"svc", some (), [], none, none, none⟩
      (some ⟨some "PROFILE", some "d1"⟩) .POST none =
      some ⟨MHD_HTTP_NOT_IMPLEMENTED, [], []⟩ ∧
    edgex_device_handler_callback
      ⟨"svc", some (), [], none, none, none⟩
      (some ⟨some "DEVICE", some "d1"⟩) .GET none =
      some ⟨MHD_HTTP_NOT_IMPLEMENTED, [], []⟩ :=
  ⟨(C5_unsupported_yields_not_implemented _ _).1 "PROFILE" (some "d1") .POST
     (by decide),
   (C5_unsupported_yields_not_implemented _ _).2 "d1" .GET
     (by decide) (by decide) (by decide)⟩

/-- Claim C6: a created or updated notification whose fetched device is
owned by a different service inserts nothing: the handler removes the id
from the registry, invokes the remove callback once (with the fetched
record's name and protocols) exactly when one is registered, performs no
add or update invocation, and returns OK. -/
theorem C6_foreign_device_removed_not_inserted
    (svc : edgex_device_service) (i : String) (m : edgex_http_method)
    (d : edgex_device)
    (hm : m = .POST ∨ m = .PUT)
    (hs : d.serviceName ≠ svc.name) :
    edgex_device_handler_callback svc (some ⟨some "DEVICE", some i⟩) m (some d) =
      some ⟨MHD_HTTP_OK,
            edgex_devmap_removedevice_byid svc.devices i,
            if (svc.removecallback).isSome
            then [.onRemove d.name d.protocols]
            else []⟩ := by
  rcases hm with hm | hm <;> subst hm <;>
    simp [edgex_device_handler_callback, hs]

/-- Witness for C6: a service holding device d1, notified over PUT of d1
now owned by service other. -/
theorem C6_witness :
    edgex_device_handler_callback
      ⟨"svc", some (), [⟨"d1", "dev1", "svc", [], .UNLOCKED⟩], none, none, some 9⟩
      (some ⟨some "DEVICE", some "d1"⟩) .PUT
      (some ⟨"d1", "dev1", "other", [], .UNLOCKED⟩) =
      some ⟨MHD_HTTP_OK, [], [.onRemove "dev1" []]⟩ :=
  C6_foreign_device_removed_not_inserted _ "d1" .PUT _ (Or.inr rfl) (by decide)

/-- Claim C7: a created or updated notification whose remote fetch
fails or returns nothing leaves the registry untouched, invokes no
callback, and returns OK (the notification is dropped, not an error). -/
theorem C7_fetch_failure_drops_notification
    (svc : edgex_device_service) (i : String) (m : edgex_http_method)
    (hm : m = .POST ∨ m = .PUT) :
    edgex_device_handler_callback svc (some ⟨some "DEVICE", some i⟩) m none =
      some ⟨MHD_HTTP_OK, svc.devices, []⟩ := by
  rcases hm with hm | hm <;> subst hm <;> rfl

/-- Witness for C7 over POST at a concrete service. -/
theorem C7_witness :
    edgex_device_handler_callback
      ⟨"svc", some (), [⟨"d1", "dev1", "svc", [], .UNLOCKED⟩], some 1, some 2, some 3⟩
      (some ⟨some "DEVICE", some "d1"⟩) .POST none =
      some ⟨MHD_HTTP_OK, [⟨"d1", "dev1", "svc", [], .UNLOCKED⟩], []⟩ :=
  C7_fetch_failure_drops_notification _ "d1" .POST (Or.inl rfl)

/-- Claim C8: for a created or updated notification of a device owned by
this service, the handler stores the replace result and dispatches
exactly per the classification (CREATED to the add callback when
registered, UPDATED_DRIVER to the update callback when registered,
UPDATED_SDK to nothing), and the dispatched event list never holds more
than one invocation. -/
theorem C8_dispatch_follows_classification
    (svc : edgex_device_service) (i : String) (m : edgex_http_method)
    (d : edgex_device)
    (hm : m = .POST ∨ m = .PUT)
    (hs : d.serviceName = svc.name) :
    edgex_device_handler_callback svc (some ⟨some "DEVICE", some i⟩) m (some d) =
      some ⟨MHD_HTTP_OK,
            (edgex_devmap_replace_device svc.devices d).2,
            devicelistDispatch svc d (edgex_devmap_replace_device svc.devices d).1⟩ ∧
    (devicelistDispatch svc d (edgex_devmap_replace_device svc.devices d).1).length ≤ 1 := by
  constructor
  · rcases hrep : edgex_devmap_replace_device svc.devices d with ⟨cls, devs⟩
    rcases hm with hm | hm <;> subst hm <;> cases cls <;>
      simp [edgex_device_handler_callback, hs, hrep, devicelistDispatch]
  · rcases hrep : edgex_devmap_replace_device svc.devices d with ⟨cls, devs⟩
    cases cls <;> simp [devicelistDispatch] <;> split <;> simp

/-- Removal only filters the device list: members of the result were
members of the input. -/
theorem mem_of_mem_removedevice {l : List edgex_device} {i : String}
    {d : edgex_device} (h : d ∈ edgex_devmap_removedevice_byid l i) :
    d ∈ l :=
  (List.mem_filter.mp h).1

/-- A member of the list a replace leaves behind is either an original
member or the new device. -/
theorem mem_of_mem_replace_snd {l : List edgex_device} {nd d : edgex_device}
    (h : d ∈ (edgex_devmap_replace_device l nd).2) :
    d ∈ l ∨ d = nd := by
  unfold edgex_devmap_replace_device at h
  split at h
  · simpa using h
  · simp only at h
    rcases List.mem_map.mp h with ⟨a, ha, he⟩
    by_cases hid : a.id = nd.id
    · rw [if_pos hid] at he
      exact Or.inr he.symm
    · rw [if_neg hid] at he
      exact Or.inl (he ▸ ha)

/-- A replace of a device owned by the service keeps every remaining
device owned by the service. -/
theorem replace_preserves_owned {svc : edgex_device_service}
    {nd : edgex_device} {cls : edgex_devmap_change}
    {devs : List edgex_device} {d : edgex_device}
    (hinv : ∀ x ∈ svc.devices, x.serviceName = svc.name)
    (hown : ¬nd.serviceName ≠ svc.name)
    (heq : edgex_devmap_replace_device svc.devices nd = (cls, devs))
    (hd : d ∈ devs) : d.serviceName = svc.name := by
  have h2 : d ∈ (edgex_devmap_replace_device svc.devices nd).2 := by
    rw [heq]
    exact hd
  rcases mem_of_mem_replace_snd h2 with h | h
  · exact hinv d h
  · rw [h]
    exact not_not.mp hown

/-- Claim C9: the handler preserves the ownership invariant.  If every
device in the registry carries the service's own name, then after any
completed run of the handler every device in the resulting registry
still does: the only insertions are of fetched records whose
serviceName was checked equal to the service's name. -/
theorem C9_registry_ownership_preserved
    (svc : edgex_device_service) (payload : Option CallbackPayload)
    (m : edgex_http_method) (f : Option edgex_device) (r : HandlerResult)
    (hinv : ∀ d ∈ svc.devices, d.serviceName = svc.name)
    (hr : edgex_device_handler_callback svc payload m f = some r) :
    ∀ d ∈ r.devices, d.serviceName = svc.name := by
  intro d hd
  unfold edgex_device_handler_callback at hr
  repeat' split at hr
  any_goals exact Option.noConfusion hr
  all_goals
    injection hr with hr
  all_goals
    subst hr
  all_goals
    first
      | exact hinv d hd
      | exact hinv d (mem_of_mem_removedevice hd)
      | exact replace_preserves_owned hinv (by assumption) (by assumption) hd

/-- Witness for C9: an empty registry, a created notification for d1
owned by this service; the inserted record is owned by the service. -/
theorem C9_witness :
    (⟨"d1", "dev1", "svc", [], .UNLOCKED⟩ : edgex_device).serviceName = "svc" :=
  C9_registry_ownership_preserved
    ⟨"svc", some (), [], some 5, none, none⟩
    (some ⟨some "DEVICE", some "d1"⟩) .POST
    (some ⟨"d1", "dev1", "svc", [], .UNLOCKED⟩)
    ⟨MHD_HTTP_OK, [⟨"d1", "dev1", "svc", [], .UNLOCKED⟩],
     [.onAdd "dev1" [] .UNLOCKED]⟩
    (by decide) rfl
    ⟨"d1", "dev1", "svc", [], .UNLOCKED⟩ (by decide)

/-- Witness for C8: empty registry, created notification for an owned
device with the add callback registered; onAdd fires once. -/
theorem C8_witness :
    edgex_device_handler_callback
      ⟨"svc", some (), [], some 5, none, none⟩
      (some ⟨some "DEVICE", some "d1"⟩) .POST
      (some ⟨"d1", "dev1", "svc", [("tcp", [("host", "1.2.3.4")])], .UNLOCKED⟩) =
      some ⟨MHD_HTTP_OK,
            [⟨"d1", "dev1", "svc", [("tcp", [("host", "1.2.3.4")])], .UNLOCKED⟩],
            [.onAdd "dev1" [("tcp", [("host", "1.2.3.4")])] .UNLOCKED]⟩ ∧
    [CbEvent.onAdd "dev1" [("tcp", [("host", "1.2.3.4")])]
       AdminState.UNLOCKED].length ≤ 1 :=
  C8_dispatch_follows_classification _ "d1" .POST _ (Or.inl rfl) rfl
